import Mathlib

/-!
Shallow embedding of `src/project/find.py` (pyfind), a single-file Python
reimplementation of a subset of Unix `find`.  The definitions below translate
the source classes and functions: expression nodes (`Node`), their evaluation
against one file (`evalNode`, mirroring the `eval` methods), the recursive
descent parser (`parse_primary` / `parse_and` / `parse_comma` / `parse_or`),
and the traversal driver (`walk` / `traverse` / `runMain`).

Operating-system services the Python code calls (stat, scandir, readlink,
pwd/grp lookups, `os.access`, subprocess spawning, `fnmatch`/`re` from the
standard library, and wall-clock time) are modelled as oracle functions
collected in `Env`; side effects (stdout/stderr writes, named-file writes,
deletions, subprocess runs) are recorded as an explicit `Effect` trace.
Machine integers do not overflow in Python, so sizes, ids and times are
`Nat` / `Int`.  A ghost `visits` trace records every `FileInfo` construction
(path and depth) so that theorems can speak about which entries a traversal
visited; it influences nothing.
-/

namespace PyFind

/-! ## stat(2) mode bits, as used via Python's `stat` module -/

def S_IFMT_MASK : Nat := 0o170000

def S_ISREG (m : Nat) : Bool := m &&& S_IFMT_MASK == 0o100000
def S_ISDIR (m : Nat) : Bool := m &&& S_IFMT_MASK == 0o040000
def S_ISLNK (m : Nat) : Bool := m &&& S_IFMT_MASK == 0o120000
def S_ISBLK (m : Nat) : Bool := m &&& S_IFMT_MASK == 0o060000
def S_ISCHR (m : Nat) : Bool := m &&& S_IFMT_MASK == 0o020000
def S_ISFIFO (m : Nat) : Bool := m &&& S_IFMT_MASK == 0o010000
def S_ISSOCK (m : Nat) : Bool := m &&& S_IFMT_MASK == 0o140000

/-- Result of `os.stat` / `os.lstat`: the fields the program reads.
Timestamps are modelled as integer seconds (`st_atime` etc. are floats in
Python; no claim depends on sub-second precision). -/
structure StatResult where
  st_mode : Nat := 0
  st_size : Nat := 0
  st_dev : Nat := 0
  st_ino : Nat := 0
  st_nlink : Nat := 0
  st_uid : Nat := 0
  st_gid : Nat := 0
  st_atime : Int := 0
  st_mtime : Int := 0
  st_ctime : Int := 0
deriving Repr, DecidableEq

/-- `FileInfo` dataclass: one snapshot per visited path. -/
structure FileInfo where
  path : String
  name : String
  depth : Nat
  lstatR : StatResult
  statR : StatResult
  is_dir : Bool
  is_symlink : Bool
deriving Repr, DecidableEq

/-- `FileInfo.mode()` returns `self.lstat.st_mode`. -/
def FileInfo.mode (fi : FileInfo) : Nat := fi.lstatR.st_mode

/-! ## Options (`-H` `-L` `-P`, `-depth`, depth bounds, `-mount`, `-daystart`) -/

inductive FollowMode where
  | P | L | H
deriving Repr, DecidableEq

structure Options where
  follow : FollowMode := .P
  depth_first : Bool := false
  maxdepth : Option Nat := none
  mindepth : Nat := 0
  mount : Bool := false
  daystart : Bool := false
deriving Repr, DecidableEq

/-! ## Expression tree

One constructor per `Node` subclass.  Python validates and resolves the
textual argument in each class `__init__` (at parse time); the constructors
therefore carry the already-resolved data, and the resolution lives in the
parser below, exactly as in the source. -/

inductive Sign where
  | plus | minus | eq
deriving Repr, DecidableEq

inductive TimeField where
  | a | m | c
deriving Repr, DecidableEq

inductive TimeUnit where
  | minute | day
deriving Repr, DecidableEq

inductive PermMode where
  | exact | all | any
deriving Repr, DecidableEq

inductive Node where
  | bool (value : Bool)
  | not (child : Node)
  | and (left right : Node)
  | or (left right : Node)
  | comma (left right : Node)
  | name (pattern : String) (ci : Bool)
  | pathGlob (pattern : String) (ci : Bool)
  | regex (pattern : String) (ci : Bool)
  | typeTest (types : String)
  | size (sign : Sign) (n : Nat) (mul : Nat)
  | links (sign : Sign) (n : Int)
  | timeCmp (which : TimeField) (sign : Sign) (n : Int) (unit : TimeUnit) (daystart : Bool)
  | newer (which : TimeField) (refTime : Option Int)
  | perm (pm : PermMode) (mask : Nat)
  | uid (n : Int)
  | gid (n : Int)
  | user (uidOpt : Option Nat)
  | group (gidOpt : Option Nat)
  | nouser
  | nogroup
  | readable
  | writable
  | executable
  | empty
  | inum (n : Int)
  | lname (pattern : String) (ci : Bool)
  | print (null : Bool)
  | fprint (outPath : String) (null : Bool)
  | printf (fmt : String) (outPath : Option String)
  | prune
  | quit
  | delete
  | ls (outPath : Option String)
  | exec (argv : List String) (plus : Bool) (inDir : Bool) (prompt : Bool)
deriving Repr, DecidableEq

/-! ## Environment: the operating-system services the program calls

Every `none` below stands for the exception the corresponding Python call can
raise and that the program catches (`OSError` on stat, `PermissionError` on
`scandir`, `KeyError` on pwd and grp lookups, `FileNotFoundError` on spawn). -/

inductive AccessKind where
  | r | w | x
deriving Repr, DecidableEq

/-- Filesystem oracles: `os.lstat`, `os.stat`, `os.scandir` (child names in
directory order), `os.readlink`. -/
structure FS where
  lstatOf : String → Option StatResult
  statOf : String → Option StatResult
  scandir : String → Option (List String)
  readlink : String → Option String

/-- External collaborators: pwd and grp lookups, `os.access`, the standard
library matchers `fnmatch.fnmatchcase` and `re.search` (pure but not
re-implemented here), regex compilability (`re.compile` succeeding), the
subprocess launcher, `os.remove` and `os.rmdir` success, wall-clock `now`
and its `day_floor`, and the `strftime` rendering used by `-ls`. -/
structure Env where
  fs : FS
  getpwuid : Nat → Option String
  getgrgid : Nat → Option String
  getpwnam : String → Option Nat
  getgrnam : String → Option Nat
  access : String → AccessKind → Bool
  fnmatchcase : String → String → Bool
  regexSearch : Bool → String → String → Bool
  regexCompiles : String → Bool
  runCmd : Option String → List String → Option Int
  removeOk : String → Bool
  rmdirOk : String → Bool
  now : Int
  dayFloorOfNow : Int
  lsTimeOf : Int → String

/-- Externally visible side effects, in program order. -/
inductive Effect where
  | stdout (s : String)
  | stderr (s : String)
  | fileWrite (path : String) (s : String)
  | deleted (path : String)
  | execRun (cwd : Option String) (argv : List String)
deriving Repr, DecidableEq

/-- `EvalContext`: the mutable state every node evaluation shares.  The
source also assigns `self.prune_flag = False` in the class body of
`EvalContext` (line 117) at class scope instead of inside `__init__`, which
is a `NameError` at import time; `walk` assigns the attribute before every
use, so the field is modelled here with the initial value the code intends.
The lazily-opened output handle map is not modelled: writes to named files
appear directly in the effect trace. -/
structure Ctx where
  quit : Bool := false
  suppress : Bool := false
  pruneFlag : Bool := false
deriving Repr, DecidableEq

/-- State threaded through node evaluation: the shared context, the effect
trace so far, and the remaining lines on standard input (consumed by `-ok`;
`readline` at end of input returns the empty string forever). -/
structure EvalState where
  ctx : Ctx
  effects : List Effect := []
  stdin : List String := []
deriving Repr, DecidableEq

def emit (e : Effect) (s : EvalState) : EvalState :=
  { s with effects := s.effects ++ [e] }

def readStdinLine (s : EvalState) : String × EvalState :=
  match s.stdin with
  | [] => ("", s)
  | l :: rest => (l, { s with stdin := rest })

/-! ## Small string helpers from `os.path` (POSIX flavour) -/

/-- Strip all trailing slashes: `path.rstrip(slash)`. -/
def rstripSlash (p : String) : String :=
  String.mk ((p.toList.reverse.dropWhile (· == '/')).reverse)

/-- Last component after the final slash. -/
def lastComponent (p : String) : String :=
  String.mk ((p.toList.reverse.takeWhile (· != '/')).reverse)

/-- The expression building a `FileInfo` name in `walk`:
`os.path.basename(path.rstrip(slash)) or path`. -/
def pyBasenameOr (p : String) : String :=
  let b := lastComponent (rstripSlash p)
  if b == "" then p else b

/-- `os.path.join(path, entry.name)` for the names scandir yields (never
absolute, never empty). -/
def pyJoin (p : String) (nm : String) : String :=
  if p == "" then nm
  else if p.toList.getLast? == some '/' then p ++ nm
  else p ++ "/" ++ nm

/-- `os.path.dirname` (POSIX): the part up to the last slash, with trailing
slashes stripped unless the result is all slashes. -/
def pyDirname (p : String) : String :=
  let cs := p.toList
  let head := (cs.reverse.dropWhile (· != '/')).reverse
  if head.all (· == '/') then String.mk head
  else String.mk ((head.reverse.dropWhile (· == '/')).reverse)

/-! ## Numeric literal parsing (validated at parse time)

`Except.error` stands for the `ValueError` the Python constructors raise. -/

def digitsVal (cs : List Char) : Nat :=
  cs.foldl (fun acc c => acc * 10 + c.toNat - 48) 0

/-- Python `int(text)` on the forms the program meets: an optional single
sign followed by one or more decimal digits.  (Python also tolerates
surrounding whitespace and underscores; those forms never reach these call
sites from a shell and are not modelled.) -/
def pyInt (text : String) : Except String Int :=
  let (neg, ds) : Bool × List Char :=
    match text.toList with
    | '+' :: rest => (false, rest)
    | '-' :: rest => (true, rest)
    | cs => (false, cs)
  if ds ≠ [] ∧ ds.all Char.isDigit then
    .ok (if neg then -(digitsVal ds : Int) else (digitsVal ds : Int))
  else
    .error ("invalid int literal " ++ text)

/-- The digit-and-sign part of `pyInt`, over the character list. -/
def pyIntChars (text : List Char) : Except String Int :=
  let (neg, ds) : Bool × List Char :=
    match text with
    | '+' :: rest => (false, rest)
    | '-' :: rest => (true, rest)
    | cs => (false, cs)
  if ds ≠ [] ∧ ds.all Char.isDigit then
    .ok (if neg then -(digitsVal ds : Int) else (digitsVal ds : Int))
  else
    .error ("invalid int literal " ++ String.mk text)

/-- `parse_n_with_sign`: a leading `+` or `-` selects the comparison, the
rest goes through `int`.  A lone `-` falls through to `int(text)`, which
fails on it. -/
def parse_n_with_sign (text : String) : Except String (Sign × Int) :=
  match text.toList with
  | '+' :: rest => (pyIntChars rest).map (fun v => (Sign.plus, v))
  | '-' :: rest =>
    if rest = [] then .error "invalid int literal -"
    else (pyIntChars rest).map (fun v => (Sign.minus, v))
  | cs => (pyIntChars cs).map (fun v => (Sign.eq, v))

def sizeUnitMul (c : Char) : Nat :=
  if c == 'b' then 512
  else if c == 'c' then 1
  else if c == 'w' then 2
  else if c == 'k' then 1024
  else if c == 'M' then 1024 * 1024
  else if c == 'G' then 1024 * 1024 * 1024
  else 1

/-- The `([+-]?)` group of the `-size` argument: the optional sign and the
remaining characters; absent sign is reported as `=`. -/
def stripSizeSign : List Char → Sign × List Char
  | '+' :: rest => (Sign.plus, rest)
  | '-' :: rest => (Sign.minus, rest)
  | cs => (Sign.eq, cs)

/-- `size_bytes_from_spec`: full match of `([+-]?)(\d+)([bcwkMG]?)`; the
empty suffix defaults to 512-byte blocks. -/
def size_bytes_from_spec (spec : String) : Except String (Sign × Nat × Nat) :=
  let sgn := (stripSizeSign spec.toList).1
  let afterSign := (stripSizeSign spec.toList).2
  let ds := afterSign.takeWhile Char.isDigit
  let rest := afterSign.drop ds.length
  if ds = [] then .error ("invalid -size " ++ spec)
  else
    match rest with
    | [] => .ok (sgn, digitsVal ds, 512)
    | [u] =>
      if u == 'b' ∨ u == 'c' ∨ u == 'w' ∨ u == 'k' ∨ u == 'M' ∨ u == 'G' then
        .ok (sgn, digitsVal ds, sizeUnitMul u)
      else .error ("invalid -size " ++ spec)
    | _ => .error ("invalid -size " ++ spec)

/-- `PermNode.__init__`: a leading `-` means all bits, a leading slash means
any bit, otherwise exact; the remainder goes through `int(s, 8)` (modelled
for the plain octal-digit forms). -/
def parse_perm_spec (spec : String) : Except String (PermMode × Nat) :=
  let (pm, cs) : PermMode × List Char :=
    match spec.toList with
    | '-' :: rest => (PermMode.all, rest)
    | '/' :: rest => (PermMode.any, rest)
    | other => (PermMode.exact, other)
  if cs ≠ [] ∧ cs.all (fun c => '0' ≤ c ∧ c ≤ '7') then
    .ok (pm, cs.foldl (fun acc c => acc * 8 + c.toNat - 48) 0)
  else .error ("invalid -perm " ++ spec)

/-! ## Node evaluation -/

/-- Python `str.lower`, for the ASCII range the tests exercise. -/
def strLower (s : String) : String := String.mk (s.toList.map Char.toLower)

/-- One requested type letter against a mode, as in `TypeNode.eval`;
letters outside `fdlbcps` never match (the constructor does not validate). -/
def typeLetterMatches (m : Nat) (t : Char) : Bool :=
  if t == 'f' then S_ISREG m
  else if t == 'd' then S_ISDIR m
  else if t == 'l' then S_ISLNK m
  else if t == 'b' then S_ISBLK m
  else if t == 'c' then S_ISCHR m
  else if t == 'p' then S_ISFIFO m
  else if t == 's' then S_ISSOCK m
  else false

/-- The shared `+` greater, `-` less, none equal convention on `Nat`. -/
def signCompareNat (sgn : Sign) (v : Nat) (n : Nat) : Bool :=
  match sgn with
  | .plus => v > n
  | .minus => v < n
  | .eq => v == n

/-- The same convention on `Int` (links, inum use `int` arguments). -/
def signCompareInt (sgn : Sign) (v : Int) (n : Int) : Bool :=
  match sgn with
  | .plus => v > n
  | .minus => v < n
  | .eq => v == n

def timeFieldOf (which : TimeField) (st : StatResult) : Int :=
  match which with
  | .a => st.st_atime
  | .m => st.st_mtime
  | .c => st.st_ctime

/-- `TimeCompareNode.eval`.  The float quotients `(now - t) / 60.0` and
`(now - t) / 86400.0` compared against integer `n` are expressed by the
equivalent integer comparisons against `60 * n` and `86400 * n`; the
no-sign case is the half-open interval `[n, n+1)` for both units. -/
def timeCompareEval (env : Env) (which : TimeField) (sgn : Sign) (n : Int)
    (unit : TimeUnit) (daystart : Bool) (fi : FileInfo) : Bool :=
  let t := timeFieldOf which fi.lstatR
  match unit with
  | .minute =>
    match sgn with
    | .plus => env.now - t > 60 * n
    | .minus => env.now - t < 60 * n
    | .eq => 60 * n ≤ env.now - t ∧ env.now - t < 60 * (n + 1)
  | .day =>
    let nowV := if daystart then env.dayFloorOfNow else env.now
    match sgn with
    | .plus => nowV - t > 86400 * n
    | .minus => nowV - t < 86400 * n
    | .eq => 86400 * n ≤ nowV - t ∧ nowV - t < 86400 * (n + 1)

def fmt_octal_mode (mode : Nat) : String :=
  Nat.toDigits 8 (mode &&& 0o7777) |> String.mk

/-- `FileInfo.user_name()`: pwd lookup of the lstat uid. -/
def userNameOf (env : Env) (fi : FileInfo) : Option String :=
  env.getpwuid fi.lstatR.st_uid

def groupNameOf (env : Env) (fi : FileInfo) : Option String :=
  env.getgrgid fi.lstatR.st_gid

/-- The `simple_printf` loop.  In the source the accumulator initialisation
was swallowed into the preceding comment (line 565 reads
`# Escapes: ...\n+    out = []`), so calling the function raises `NameError`;
the loop below follows the evident intent of the surviving body: `%p` path,
`%f` basename, `%s` size, `%m` octal mode, `%u` user, `%g` group, unknown
percent codes pass through with their `%`, and the escapes `\n` `\t` `\0`
map to the control characters while other escaped characters pass through. -/
def simple_printf_go (env : Env) (fi : FileInfo) : List Char → String
  | [] => ""
  | '%' :: rest =>
    match rest with
    | [] => ""
    | code :: rest2 =>
      (if code == 'p' then fi.path
       else if code == 'f' then fi.name
       else if code == 's' then toString fi.lstatR.st_size
       else if code == 'm' then fmt_octal_mode fi.lstatR.st_mode
       else if code == 'u' then (userNameOf env fi).getD (toString fi.lstatR.st_uid)
       else if code == 'g' then (groupNameOf env fi).getD (toString fi.lstatR.st_gid)
       else String.mk ['%', code]) ++ simple_printf_go env fi rest2
  | '\\' :: rest =>
    match rest with
    | [] => ""
    | esc :: rest2 =>
      (if esc == 'n' then "\n"
       else if esc == 't' then "\t"
       else if esc == '0' then "\x00"
       else String.mk [esc]) ++ simple_printf_go env fi rest2
  | c :: rest => String.mk [c] ++ simple_printf_go env fi rest

def simple_printf (env : Env) (format_str : String) (fi : FileInfo) : String :=
  simple_printf_go env fi format_str.toList

/-- `stat_filemode`: type character plus the nine permission characters with
setuid, setgid and sticky adjustments. -/
def stat_filemode (mode : Nat) : String :=
  let typeC := if S_ISDIR mode then "d" else if S_ISLNK mode then "l" else "-"
  let bit := fun (b : Nat) (c : Char) => if mode &&& b ≠ 0 then c else '-'
  let c2 := bit 0o100 'x'
  let c2 := if mode &&& 0o4000 ≠ 0 then (if c2 == 'x' then 's' else 'S') else c2
  let c5 := bit 0o010 'x'
  let c5 := if mode &&& 0o2000 ≠ 0 then (if c5 == 'x' then 's' else 'S') else c5
  let c8 := bit 0o001 'x'
  let c8 := if mode &&& 0o1000 ≠ 0 then (if c8 == 'x' then 't' else 'T') else c8
  typeC ++ String.mk [bit 0o400 'r', bit 0o200 'w', c2,
                      bit 0o040 'r', bit 0o020 'w', c5,
                      bit 0o004 'r', bit 0o002 'w', c8]

/-- `format_ls_line`; the fixed column widths of the source's f-string are
not reproduced (the spec places exact listing column widths out of scope),
the field order and contents are. -/
def format_ls_line (env : Env) (fi : FileInfo) : String :=
  let st := fi.lstatR
  stat_filemode st.st_mode ++ " " ++ toString st.st_nlink ++ " " ++
    (userNameOf env fi).getD (toString st.st_uid) ++ " " ++
    (groupNameOf env fi).getD (toString st.st_gid) ++ " " ++
    toString st.st_size ++ " " ++ env.lsTimeOf st.st_mtime ++ " " ++ fi.path

/-- `ExecNode._build_cmd`: replace each literal placeholder token with the
path; if no placeholder was present append the path. -/
def build_cmd (argv : List String) (path : String) : List String :=
  let replaced := argv.any (fun a => a == "\x7b\x7d")
  let cmd := argv.map (fun a => if a == "\x7b\x7d" then path else a)
  if replaced then cmd else cmd ++ [path]

/-- `ExecNode._run`: optional working directory, optional y-or-n prompt on
stdin, then the subprocess; true iff the exit status is zero, spawn failure
is reported and false.  `shlex.join` is rendered as plain space joining. -/
def execSpawn (env : Env) (cwd : Option String) (cmd : List String)
    (s : EvalState) : Bool × EvalState :=
  match env.runCmd cwd cmd with
  | none => (false, emit (.stderr ("find: command not found: " ++ cmd.headD "")) s)
  | some rc => (rc == 0, emit (.execRun cwd cmd) s)

def execRunStep (env : Env) (inDir : Bool) (prompt : Bool) (fi : FileInfo)
    (cmd : List String) (s : EvalState) : Bool × EvalState :=
  let cwd : Option String := if inDir then some (pyDirname fi.path) else none
  if prompt then
    let s1 := emit (.stdout ("< " ++ String.intercalate " " cmd ++ " ... (y/n)? ")) s
    let ans := (readStdinLine s1).1
    let s2 := (readStdinLine s1).2
    if !(strLower ans.trim).startsWith "y" then (false, s2)
    else execSpawn env cwd cmd s2
  else execSpawn env cwd cmd s

/-- Node evaluation: `Node.eval(fi, ctx)` for every subclass, threading the
context, effect trace and stdin.  `prune` follows the evident intent of the
source (its `eval` body at lines 634-637 is mis-indented, an
`IndentationError`; the surviving comment says it marks a prune request). -/
def evalNode (env : Env) : Node → FileInfo → EvalState → Bool × EvalState
  | .bool v, _, s => (v, s)
  | .not c, fi, s =>
    let (b, s1) := evalNode env c fi s
    (!b, s1)
  | .and l r, fi, s =>
    let (b, s1) := evalNode env l fi s
    if !b then (false, s1) else evalNode env r fi s1
  | .or l r, fi, s =>
    let (b, s1) := evalNode env l fi s
    if b then (true, s1) else evalNode env r fi s1
  | .comma l r, fi, s =>
    let (_, s1) := evalNode env l fi s
    evalNode env r fi s1
  | .name pat ci, fi, s =>
    let nm := if ci then strLower fi.name else fi.name
    let p := if ci then strLower pat else pat
    (env.fnmatchcase nm p, s)
  | .pathGlob pat ci, fi, s =>
    let ph := if ci then strLower fi.path else fi.path
    let p := if ci then strLower pat else pat
    (env.fnmatchcase ph p, s)
  | .regex pat ci, fi, s => (env.regexSearch ci pat fi.path, s)
  | .typeTest ts, fi, s => (ts.toList.any (typeLetterMatches fi.mode), s)
  | .size sgn n mul, fi, s =>
    let blocks := (fi.lstatR.st_size + mul - 1) / mul
    (signCompareNat sgn blocks n, s)
  | .links sgn n, fi, s => (signCompareInt sgn (fi.lstatR.st_nlink : Int) n, s)
  | .timeCmp which sgn n unit ds, fi, s =>
    (timeCompareEval env which sgn n unit ds fi, s)
  | .newer which refTime, fi, s =>
    match refTime with
    | none => (false, s)
    | some rt => (decide (timeFieldOf which fi.lstatR > rt), s)
  | .perm pm mask, fi, s =>
    let m := fi.lstatR.st_mode &&& 0o7777
    (match pm with
     | .exact => m == mask
     | .all => m &&& mask == mask
     | .any => m &&& mask != 0, s)
  | .uid n, fi, s => ((fi.lstatR.st_uid : Int) == n, s)
  | .gid n, fi, s => ((fi.lstatR.st_gid : Int) == n, s)
  | .user uidOpt, fi, s =>
    (match uidOpt with
     | some u => fi.lstatR.st_uid == u
     | none => false, s)
  | .group gidOpt, fi, s =>
    (match gidOpt with
     | some g => fi.lstatR.st_gid == g
     | none => false, s)
  | .nouser, fi, s => ((env.getpwuid fi.lstatR.st_uid).isNone, s)
  | .nogroup, fi, s => ((env.getgrgid fi.lstatR.st_gid).isNone, s)
  | .readable, fi, s => (env.access fi.path .r, s)
  | .writable, fi, s => (env.access fi.path .w, s)
  | .executable, fi, s => (env.access fi.path .x, s)
  | .empty, fi, s =>
    (if S_ISDIR fi.mode then
       match env.fs.scandir fi.path with
       | some entries => entries.isEmpty
       | none => false
     else fi.lstatR.st_size == 0, s)
  | .inum n, fi, s => ((fi.lstatR.st_ino : Int) == n, s)
  | .lname pat ci, fi, s =>
    (if !S_ISLNK fi.mode then false
     else
       match env.fs.readlink fi.path with
       | none => false
       | some target =>
         let tg := if ci then strLower target else target
         let p := if ci then strLower pat else pat
         env.fnmatchcase tg p, s)
  | .print null, fi, s =>
    if s.ctx.suppress then (true, s)
    else (true, emit (.stdout (fi.path ++ (if null then "\x00" else "\n"))) s)
  | .fprint outPath null, fi, s =>
    if s.ctx.suppress then (true, s)
    else (true, emit (.fileWrite outPath (fi.path ++ (if null then "\x00" else "\n"))) s)
  | .printf fmt outPath, fi, s =>
    if s.ctx.suppress then (true, s)
    else
      let str := simple_printf env fmt fi
      (true, emit (match outPath with
                   | some p => .fileWrite p str
                   | none => .stdout str) s)
  | .prune, _, s => (true, { s with ctx := { s.ctx with pruneFlag := true } })
  | .quit, _, s => (true, { s with ctx := { s.ctx with quit := true } })
  | .delete, fi, s =>
    if s.ctx.suppress then (true, s)
    else if S_ISDIR fi.mode then
      if env.rmdirOk fi.path then (true, emit (.deleted fi.path) s)
      else (false, emit (.stderr ("find: failed to delete " ++ fi.path)) s)
    else
      if env.removeOk fi.path then (true, emit (.deleted fi.path) s)
      else (false, emit (.stderr ("find: failed to delete " ++ fi.path)) s)
  | .ls outPath, fi, s =>
    let line := format_ls_line env fi
    if s.ctx.suppress then (true, s)
    else (true, emit (match outPath with
                      | some p => .fileWrite p (line ++ "\n")
                      | none => .stdout (line ++ "\n")) s)
  | .exec argv _plus inDir prompt, fi, s =>
    if s.ctx.suppress then (true, s)
    else
      -- the `plus` and semicolon forms run identically (one path per
      -- invocation), as the source's comment concedes
      execRunStep env inDir prompt fi (build_cmd argv fi.path) s

/-! ## Parser

`parse_expression` is a recursive-descent parser over the flat token list;
`Except.error` stands for the `ValueError` a branch raises.  Tokens are
consumed from the front of the list (the source's `Tokens` cursor).  The
structure below follows the source: `parse_or` is the entry point and calls
`parse_comma`, which calls `parse_and`, which calls `parse_primary` — so a
comma binds tighter than `-o` in this code, although the function's own
comment (line 915) announces the precedence `! > -a (implicit) > -o > ,`.
Recursion through nested parentheses is bounded by a fuel argument; the fuel
the callers pass always suffices for the given token list. -/

/-- The argument-collection loop of the `-exec` family: consume tokens up to
and including the terminating semicolon or plus sign; running out of tokens
first is the missing-terminator parse error. -/
def collect_exec_args (tok : String) :
    List String → List String → Except String (List String × Bool × List String)
  | [], _ => .error (tok ++ ": missing terminating semicolon or plus")
  | a :: r, acc =>
    if a == ";" then .ok (acc.reverse, false, r)
    else if a == "+" then .ok (acc.reverse, true, r)
    else collect_exec_args tok r (a :: acc)

/-- The leaf (test and action) cases of `parse_primary`, after the leading
token `tok` has been consumed; returns the node and the remaining tokens. -/
def parse_leaf (env : Env) (opts : Options) (tok : String) (rest : List String) :
    Except String (Node × List String) :=
  if tok == "-true" then .ok (.bool true, rest)
  else if tok == "-false" then .ok (.bool false, rest)
  else if tok == "-name" ∨ tok == "-iname" then
    match rest with
    | [] => .error "-name requires a pattern"
    | pat :: r => .ok (.name pat (tok == "-iname"), r)
  else if tok == "-path" ∨ tok == "-wholename" ∨ tok == "-iwholename" then
    match rest with
    | [] => .error (tok ++ " requires a pattern")
    | pat :: r => .ok (.pathGlob pat (tok == "-iwholename"), r)
  else if tok == "-regex" ∨ tok == "-iregex" then
    match rest with
    | [] => .error "-regex requires a pattern"
    | pat :: r =>
      -- `re.compile` runs here; an invalid pattern raises (`re.error`)
      if env.regexCompiles pat then .ok (.regex pat (tok == "-iregex"), r)
      else .error ("invalid regex " ++ pat)
  else if tok == "-type" then
    match rest with
    | [] => .error "-type requires a type spec"
    | "" :: _ => .error "-type requires a type spec"
    | ts :: r => .ok (.typeTest ts, r)
  else if tok == "-size" then
    match rest with
    | [] => .error "-size requires an argument"
    | "" :: _ => .error "-size requires an argument"
    | spec :: r =>
      match size_bytes_from_spec spec with
      | .error e => .error e
      | .ok (sgn, n, mul) => .ok (.size sgn n mul, r)
  else if tok == "-mtime" ∨ tok == "-mmin" ∨ tok == "-atime" ∨ tok == "-amin" ∨
          tok == "-ctime" ∨ tok == "-cmin" then
    match rest with
    | [] => .error (tok ++ " requires N")
    | "" :: _ => .error (tok ++ " requires N")
    | spec :: r =>
      match parse_n_with_sign spec with
      | .error e => .error e
      | .ok (sgn, n) =>
        let which : TimeField :=
          if tok == "-mtime" ∨ tok == "-mmin" then .m
          else if tok == "-atime" ∨ tok == "-amin" then .a
          else .c
        -- `tok.endswith(min)`: among the six tokens of this branch these
        -- are exactly the minute-unit ones
        let unit : TimeUnit :=
          if tok == "-mmin" ∨ tok == "-amin" ∨ tok == "-cmin" then .minute else .day
        .ok (.timeCmp which sgn n unit opts.daystart, r)
  else if tok == "-perm" then
    match rest with
    | [] => .error "-perm requires MODE"
    | "" :: _ => .error "-perm requires MODE"
    | spec :: r =>
      match parse_perm_spec spec with
      | .error e => .error e
      | .ok (pm, mask) => .ok (.perm pm mask, r)
  else if tok == "-uid" then
    match rest with
    | [] => .error "-uid requires N"
    | v :: r => (pyInt v).map (fun n => (.uid n, r))
  else if tok == "-gid" then
    match rest with
    | [] => .error "-gid requires N"
    | v :: r => (pyInt v).map (fun n => (.gid n, r))
  else if tok == "-user" then
    match rest with
    | [] => .error "-user requires NAME"
    | nm :: r => .ok (.user (env.getpwnam nm), r)
  else if tok == "-group" then
    match rest with
    | [] => .error "-group requires NAME"
    | nm :: r => .ok (.group (env.getgrnam nm), r)
  else if tok == "-links" then
    match rest with
    | [] => .error "-links requires N"
    | spec :: r =>
      match parse_n_with_sign spec with
      | .error e => .error e
      | .ok (sgn, n) => .ok (.links sgn n, r)
  else if tok == "-empty" then .ok (.empty, rest)
  else if tok == "-readable" then .ok (.readable, rest)
  else if tok == "-writable" then .ok (.writable, rest)
  else if tok == "-executable" then .ok (.executable, rest)
  else if tok == "-newer" ∨ tok == "-anewer" ∨ tok == "-cnewer" then
    match rest with
    | [] => .error (tok ++ " requires FILE")
    | p :: r =>
      let which : TimeField :=
        if tok == "-newer" then .m else if tok == "-anewer" then .a else .c
      -- reference timestamp captured now via `os.stat`; a missing reference
      -- file leaves the node permanently false
      let refTime : Option Int := (env.fs.statOf p).map (timeFieldOf which)
      .ok (.newer which refTime, r)
  else if tok == "-inum" then
    match rest with
    | [] => .error "-inum requires N"
    | v :: r => (pyInt v).map (fun n => (.inum n, r))
  else if tok == "-lname" then
    match rest with
    | [] => .error "-lname requires PATTERN"
    | pat :: r => .ok (.lname pat false, r)
  else if tok == "-ilname" then
    match rest with
    | [] => .error "-ilname requires PATTERN"
    | pat :: r => .ok (.lname pat true, r)
  else if tok == "-nouser" then .ok (.nouser, rest)
  else if tok == "-nogroup" then .ok (.nogroup, rest)
  else if tok == "-print" ∨ tok == "-print0" then
    .ok (.print (tok == "-print0"), rest)
  else if tok == "-fprint" ∨ tok == "-fprint0" then
    match rest with
    | [] => .error (tok ++ " requires FILE")
    | p :: r => .ok (.fprint p (tok == "-fprint0"), r)
  else if tok == "-printf" ∨ tok == "-fprintf" then
    if tok == "-fprintf" then
      match rest with
      | [] => .error "-fprintf requires FILE FORMAT"
      | p :: r =>
        match r with
        | [] => .error (tok ++ " requires FORMAT")
        | fmt :: r2 => .ok (.printf fmt (some p), r2)
    else
      match rest with
      | [] => .error (tok ++ " requires FORMAT")
      | fmt :: r => .ok (.printf fmt none, r)
  else if tok == "-prune" then .ok (.prune, rest)
  else if tok == "-quit" then .ok (.quit, rest)
  else if tok == "-delete" then .ok (.delete, rest)
  else if tok == "-ls" then .ok (.ls none, rest)
  else if tok == "-fls" then
    match rest with
    | [] => .error "-fls requires FILE"
    | p :: r => .ok (.ls (some p), r)
  else if tok == "-exec" ∨ tok == "-execdir" ∨ tok == "-ok" ∨ tok == "-okdir" then
    let prompt := tok == "-ok" ∨ tok == "-okdir"
    let inDir := tok == "-execdir" ∨ tok == "-okdir"
    match collect_exec_args tok rest [] with
    | .error e => .error e
    | .ok (args, plus, r) => .ok (.exec args plus inDir prompt, r)
  else .error ("unknown token " ++ tok)

mutual

/-- `parse_primary`: empty input yields `-true`; a parenthesised
sub-expression re-enters `parse_or` and demands the closing parenthesis;
`!` and `-not` recurse into another primary; anything else is handed to the
test and action dispatch. -/
def parse_primary (env : Env) (opts : Options) :
    Nat → List String → Except String (Node × List String)
  | 0, _ => .error "expression nesting too deep"
  | _ + 1, [] => .ok (.bool true, [])
  | fuel + 1, t :: rest =>
    if t == "(" then
      match parse_or env opts fuel rest with
      | .error e => .error e
      | .ok (node, rem) =>
        match rem with
        | ")" :: rem2 => .ok (node, rem2)
        | _ => .error "missing )"
    else if t == "!" ∨ t == "-not" then
      match parse_primary env opts fuel rest with
      | .error e => .error e
      | .ok (c, rem) => .ok (.not c, rem)
    else parse_leaf env opts t rest

/-- The `while` loop of `parse_and`: implicit juxtaposition and explicit
`-a` and `-and` both fold left into `AndNode`; the loop stops before `)`
`-o` `-or` `,` or the end of input. -/
def parse_and_rest (env : Env) (opts : Options) (node : Node) :
    Nat → List String → Except String (Node × List String)
  | 0, _ => .error "expression nesting too deep"
  | _ + 1, [] => .ok (node, [])
  | fuel + 1, t :: rest =>
    if t == ")" ∨ t == "-o" ∨ t == "-or" ∨ t == "," then .ok (node, t :: rest)
    else if t == "-a" ∨ t == "-and" then
      match parse_primary env opts fuel rest with
      | .error e => .error e
      | .ok (right, rem) => parse_and_rest env opts (.and node right) fuel rem
    else
      match parse_primary env opts fuel (t :: rest) with
      | .error e => .error e
      | .ok (right, rem) => parse_and_rest env opts (.and node right) fuel rem

def parse_and (env : Env) (opts : Options) :
    Nat → List String → Except String (Node × List String)
  | 0, _ => .error "expression nesting too deep"
  | fuel + 1, toks =>
    match parse_primary env opts fuel toks with
    | .error e => .error e
    | .ok (node, rem) => parse_and_rest env opts node fuel rem

/-- The `while` loop of `parse_comma`. -/
def parse_comma_rest (env : Env) (opts : Options) (node : Node) :
    Nat → List String → Except String (Node × List String)
  | 0, _ => .error "expression nesting too deep"
  | _ + 1, [] => .ok (node, [])
  | fuel + 1, t :: rest =>
    if t == "," then
      match parse_and env opts fuel rest with
      | .error e => .error e
      | .ok (right, rem) => parse_comma_rest env opts (.comma node right) fuel rem
    else .ok (node, t :: rest)

def parse_comma (env : Env) (opts : Options) :
    Nat → List String → Except String (Node × List String)
  | 0, _ => .error "expression nesting too deep"
  | fuel + 1, toks =>
    match parse_and env opts fuel toks with
    | .error e => .error e
    | .ok (node, rem) => parse_comma_rest env opts node fuel rem

/-- The `while` loop of `parse_or`. -/
def parse_or_rest (env : Env) (opts : Options) (node : Node) :
    Nat → List String → Except String (Node × List String)
  | 0, _ => .error "expression nesting too deep"
  | _ + 1, [] => .ok (node, [])
  | fuel + 1, t :: rest =>
    if t == "-o" ∨ t == "-or" then
      match parse_comma env opts fuel rest with
      | .error e => .error e
      | .ok (right, rem) => parse_or_rest env opts (.or node right) fuel rem
    else .ok (node, t :: rest)

def parse_or (env : Env) (opts : Options) :
    Nat → List String → Except String (Node × List String)
  | 0, _ => .error "expression nesting too deep"
  | fuel + 1, toks =>
    match parse_comma env opts fuel toks with
    | .error e => .error e
    | .ok (node, rem) => parse_or_rest env opts node fuel rem

end

/-- `parse_expression`: the entry point returns `parse_or()`.  The returned
remainder is what the cursor has not consumed; `main` ignores it. -/
def parse_expression (env : Env) (opts : Options) (fuel : Nat)
    (tokens : List String) : Except String (Node × List String) :=
  parse_or env opts fuel tokens

/-! ## Traversal driver -/

/-- `get_stats(path, follow_symlinks)`: the lstat, and the followed stat
when asked for — falling back to the lstat when following fails; both absent
when lstat itself fails. -/
def get_stats (fs : FS) (path : String) (follow : Bool) :
    Option StatResult × Option StatResult :=
  match fs.lstatOf path with
  | none => (none, none)
  | some lst =>
    if follow then
      match fs.statOf path with
      | some st => (some lst, some st)
      | none => (some lst, some lst)
    else (some lst, some lst)

/-- The per-file suppression computation of `walk` (line 1192):
`(maxdepth set and depth > maxdepth) or (depth < mindepth)`. -/
def suppress_for (opts : Options) (depth : Nat) : Bool :=
  (match opts.maxdepth with
   | some md => decide (depth > md)
   | none => false) || decide (depth < opts.mindepth)

/-- The traversal-local state: the shared evaluation state, the match
counter (`total_matches`), the `-L` cycle-detection set (`visited_dirs`,
fresh per root), and the ghost trace of constructed `FileInfo`s. -/
structure WalkState where
  es : EvalState
  total_matches : Nat := 0
  visited : List (Nat × Nat) := []
  visits : List (String × Nat) := []
deriving Repr, DecidableEq

def setSuppress (s : WalkState) (v : Bool) : WalkState :=
  { s with es := { s.es with ctx := { s.es.ctx with suppress := v } } }

def resetPrune (s : WalkState) : WalkState :=
  { s with es := { s.es with ctx := { s.es.ctx with pruneFlag := false } } }

/-- The recursive `walk(path, depth)` closure of `traverse`, faithful to its
statement order: quit check, stats, `FileInfo` construction, suppression,
pre-order evaluation with prune reset and check, the recursion decision
(directory, not pruned, below maxdepth, same device under `-mount`, not a
seen device-inode pair under `-L`), the children loop, then post-order
evaluation in `-depth` mode.  A directory listing failure yields an empty
entry list.  In the source, the three follow-mode branches of the children
loop all make the identical recursive call (their `is_dir_following` guards
select between two equal arms), so the loop body is one call here; the
loop's per-sibling quit check is the conditional in the fold.  Recursion is
bounded by explicit fuel; fuel `0` returns the state unchanged. -/
def walk (env : Env) (opts : Options) (expr : Node) (startDev : Nat)
    (fuel : Nat) (path : String) (depth : Nat) (s : WalkState) : WalkState :=
  match fuel with
  | 0 => s
  | fuel + 1 =>
    if s.es.ctx.quit then s
    else
      match get_stats env.fs path (opts.follow == .L) with
      | (none, _) => s
      | (some lst, stO) =>
        let st := stO.getD lst
        let is_dir := S_ISDIR lst.st_mode
        let is_link := S_ISLNK lst.st_mode
        let fi : FileInfo :=
          { path := path, name := pyBasenameOr path, depth := depth,
            lstatR := lst, statR := st, is_dir := is_dir, is_symlink := is_link }
        let s0 := { s with visits := s.visits ++ [(path, depth)] }
        let s1 := setSuppress s0 (suppress_for opts depth)
        let pres :=
          if !opts.depth_first || !is_dir then
            let sR := resetPrune s1
            let r := evalNode env expr fi sR.es
            let tm := sR.total_matches + (if r.1 then 1 else 0)
            let sE := { sR with es := r.2, total_matches := tm }
            (r.2.ctx.pruneFlag && is_dir, sE)
          else (false, s1)
        let prune_here := pres.1
        let s2 := pres.2
        let dr0 := is_dir && !prune_here
        let dr1 :=
          match opts.maxdepth with
          | some md => if depth ≥ md then false else dr0
          | none => dr0
        let dr2 :=
          if opts.mount && is_dir && (lst.st_dev != startDev) then false
          else dr1
        -- the `-L` cycle check: membership in `visited_dirs` forces no
        -- recursion, a fresh device-inode pair is recorded (the source's
        -- single if-else, phrased as the condition and the update)
        let key := (lst.st_dev, lst.st_ino)
        let cycle := is_dir && (opts.follow == .L) && s2.visited.contains key
        let s3 :=
          if is_dir && (opts.follow == .L) && !s2.visited.contains key then
            { s2 with visited := key :: s2.visited }
          else s2
        let do_recurse := dr2 && !cycle
        let s4 :=
          if do_recurse && !s3.es.ctx.quit then
            ((env.fs.scandir path).getD []).foldl
              (fun sc nm =>
                if sc.es.ctx.quit then sc
                else walk env opts expr startDev fuel (pyJoin path nm) (depth + 1) sc)
              s3
          else s3
        if opts.depth_first && is_dir && !s4.es.ctx.quit then
          let sR := resetPrune s4
          let r := evalNode env expr fi sR.es
          let tm := sR.total_matches + (if r.1 then 1 else 0)
          { sR with es := r.2, total_matches := tm }
        else s4

/-- One step of the children loop, as a named function: the quit flag
aborts the remaining siblings, otherwise recurse into the joined child path
one level deeper.  Definitionally equal to the fold body inside `walk`. -/
def walk_child (env : Env) (opts : Options) (expr : Node) (startDev : Nat)
    (fuel : Nat) (path : String) (depth : Nat)
    (s : WalkState) (nm : String) : WalkState :=
  if s.es.ctx.quit then s
  else walk env opts expr startDev fuel (pyJoin path nm) (depth + 1) s

theorem walk_child_eq (env : Env) (opts : Options) (expr : Node) (startDev : Nat)
    (fuel : Nat) (path : String) (depth : Nat) :
    (fun sc nm =>
       if sc.es.ctx.quit then sc
       else walk env opts expr startDev fuel (pyJoin path nm) (depth + 1) sc) =
    walk_child env opts expr startDev fuel path depth := rfl

/-- The fresh state of `traverse`: a new `EvalContext` (quit, suppression
and prune flags clear), no effects yet, the process's standard input. -/
def init_walk_state (stdin0 : List String) : WalkState :=
  { es := { ctx := {}, stdin := stdin0 } }

/-- `traverse(paths, expr, opts)`: one shared context across all roots.  A
root whose lstat fails is reported to stderr and skipped.  The source also
computes `start_is_dir`, `start_is_symlink` and a followed `start_stat` for
the announced `-H` root special case, but never uses them, so they do not
appear here; the root walk always starts from the path's own lstat. -/
def traverse (env : Env) (opts : Options) (expr : Node) (fuel : Nat)
    (paths : List String) (stdin0 : List String) : WalkState :=
  paths.foldl
    (fun s start =>
      match get_stats env.fs start (opts.follow == .L || opts.follow == .H) with
      | (none, _) =>
        { s with es := emit (.stderr ("find: " ++ start ++ ": No such file or directory")) s.es }
      | (some start_lstat, _) =>
        walk env opts expr start_lstat.st_dev fuel start 0 { s with visited := [] })
    (init_walk_state stdin0)

/-! ## main -/

/-- `main` returns 130 when a `KeyboardInterrupt` reaches it. -/
def INTERRUPT_EXIT : Nat := 130

def VERSION : String := "pyfind 0.1.0"

/-- The usage text printed for `--help` (its full wording is immaterial to
every claim and is elided). -/
def HELP_TEXT : String := "Usage: find [-H] [-L] [-P] [path...] [expression]"

/-- The tail of `main` once option and path tokens have been split off:
`--help` and `--version` answer alone; an empty expression defaults to
`-print`; a `ValueError` escaping `parse_expression` is reported as
`find: message` and exits 1 (an uncaught constructor exception, e.g.
`re.error`, also reaches the interpreter before any traversal and exits 1);
otherwise the traversal runs over the CLI paths, defaulting to the current
directory, and the exit status is 0.  The per-run `-files0-from` path list
is outside this model.  Returns the exit status, the effect trace, and the
ghost visit trace. -/
def runMain (env : Env) (opts : Options) (fuel : Nat) (rest : List String)
    (cli_paths : List String) (stdin0 : List String) :
    Nat × List Effect × List (String × Nat) :=
  if rest == ["--help"] then (0, [.stdout (HELP_TEXT ++ "\n")], [])
  else if rest == ["--version"] then (0, [.stdout (VERSION ++ "\n")], [])
  else
    let exprE : Except String Node :=
      if rest.isEmpty then .ok (.print false)
      else (parse_expression env opts fuel rest).map Prod.fst
    match exprE with
    | .error msg => (1, [.stderr ("find: " ++ msg)], [])
    | .ok expr =>
      let start_paths := if cli_paths.isEmpty then ["."] else cli_paths
      let s := traverse env opts expr fuel start_paths stdin0
      (0, s.es.effects, s.visits)

/-! ## Concrete fixtures used by the verification theorems -/

/-- An empty filesystem oracle. -/
def noFS : FS :=
  { lstatOf := fun _ => none, statOf := fun _ => none,
    scandir := fun _ => none, readlink := fun _ => none }

/-- A minimal concrete environment (everything absent or failing, every
regex compilable); enough for parsing and for nodes that do not consult the
environment. -/
def trivEnv : Env :=
  { fs := noFS, getpwuid := fun _ => none, getgrgid := fun _ => none,
    getpwnam := fun _ => none, getgrnam := fun _ => none, access := fun _ _ => false,
    fnmatchcase := fun _ _ => false, regexSearch := fun _ _ _ => false,
    regexCompiles := fun _ => true, runCmd := fun _ _ => none,
    removeOk := fun _ => false, rmdirOk := fun _ => false, now := 0, dayFloorOfNow := 0,
    lsTimeOf := fun _ => "" }

def dirMode : Nat := 0o040755
def fileMode : Nat := 0o100644
def linkMode : Nat := 0o120777
def fifoMode : Nat := 0o010644

/-- A plain `FileInfo` for a regular file of a given size. -/
def fileFi (sz : Nat) : FileInfo :=
  { path := "f", name := "f", depth := 0,
    lstatR := { st_mode := fileMode, st_size := sz },
    statR := { st_mode := fileMode, st_size := sz },
    is_dir := false, is_symlink := false }

/-- A `FileInfo` for a zero-byte FIFO (named pipe). -/
def fifoFi : FileInfo :=
  { path := "p", name := "p", depth := 0,
    lstatR := { st_mode := fifoMode, st_size := 0 },
    statR := { st_mode := fifoMode, st_size := 0 },
    is_dir := false, is_symlink := false }

def initES : EvalState := { ctx := {} }

/-- Root `r` containing directories `a` (inode 5, child `f`) and `b`
(inode 7, child `g`). -/
def demoFS : FS :=
  { lstatOf := fun p =>
      if p == "r" then some { st_mode := dirMode, st_ino := 1 }
      else if p == "r/a" then some { st_mode := dirMode, st_ino := 5 }
      else if p == "r/a/f" then some { st_mode := fileMode, st_ino := 6 }
      else if p == "r/b" then some { st_mode := dirMode, st_ino := 7 }
      else if p == "r/b/g" then some { st_mode := fileMode, st_ino := 8 }
      else none,
    statOf := fun _ => none,
    scandir := fun p =>
      if p == "r" then some ["a", "b"]
      else if p == "r/a" then some ["f"]
      else if p == "r/b" then some ["g"]
      else none,
    readlink := fun _ => none }

def demoEnv : Env := { trivEnv with fs := demoFS }

/-- Root `s`, a symlink to directory `d` which contains one file `f`: the
`-H` scenario.  The followed stat of `s` is `d`'s directory stat, and the
operating system would list `f` under the path `s` (path-based scandir
follows the link). -/
def hFS : FS :=
  { lstatOf := fun p =>
      if p == "s" then some { st_mode := linkMode, st_ino := 2 }
      else if p == "d" then some { st_mode := dirMode, st_ino := 3 }
      else if p == "d/f" then some { st_mode := fileMode, st_ino := 4 }
      else if p == "s/f" then some { st_mode := fileMode, st_ino := 4 }
      else none,
    statOf := fun p =>
      if p == "s" then some { st_mode := dirMode, st_ino := 3 }
      else if p == "d" then some { st_mode := dirMode, st_ino := 3 }
      else if p == "d/f" then some { st_mode := fileMode, st_ino := 4 }
      else if p == "s/f" then some { st_mode := fileMode, st_ino := 4 }
      else none,
    scandir := fun p => if p == "s" ∨ p == "d" then some ["f"] else none,
    readlink := fun p => if p == "s" then some "d" else none }

def hEnv : Env := { trivEnv with fs := hFS }

/-! ## Claim theorems -/

/-- C1: the claim says the parser encodes precedence NOT > AND > OR > comma,
so that `A -o B , C` groups as `(A -o B) , C`.  The code does not: its entry
point `parse_or` calls `parse_comma`, so the comma binds tighter than `-o`,
contradicting the parser's own comment (line 915, `! > -a (implicit) > -o > ,`)
and the help text's decreasing-precedence operator list.  On the failing
token sequence `-true -o -true , -false` the parser produces
`Or(-true, Comma(-true, -false))`, which evaluates true on every file,
whereas the claimed grouping `Comma(Or(-true, -true), -false)` evaluates
false. -/
theorem claim1_comma_binds_tighter_than_or :
    parse_expression trivEnv {} 20 ["-true", "-o", "-true", ",", "-false"] =
      .ok (.or (.bool true) (.comma (.bool true) (.bool false)), []) ∧
    parse_expression trivEnv {} 20 ["-true", "-o", "-true", ",", "-false"] ≠
      .ok (.comma (.or (.bool true) (.bool true)) (.bool false), []) ∧
    (evalNode trivEnv (.or (.bool true) (.comma (.bool true) (.bool false)))
      (fileFi 0) initES).1 = true ∧
    (evalNode trivEnv (.comma (.or (.bool true) (.bool true)) (.bool false))
      (fileFi 0) initES).1 = false := by
  refine ⟨rfl, ?_, rfl, rfl⟩
  rw [show parse_expression trivEnv {} 20 ["-true", "-o", "-true", ",", "-false"] =
      .ok (.or (.bool true) (.comma (.bool true) (.bool false)), []) from rfl]
  simp

/-- C5: AND and OR evaluation short-circuits.  When the left operand of an
AND evaluates false, the AND's result is false with exactly the left
operand's state (the right operand contributes nothing, so none of its side
effects happen); dually for OR with a true left operand.  In particular
`-false -a R` and `-true -o R` leave the state untouched for every node
`R`, so a skipped action's effect never occurs. -/
theorem claim5_and_or_short_circuit :
    (∀ (env : Env) (l r : Node) (fi : FileInfo) (s : EvalState),
       (evalNode env l fi s).1 = false →
       evalNode env (.and l r) fi s = (false, (evalNode env l fi s).2)) ∧
    (∀ (env : Env) (l r : Node) (fi : FileInfo) (s : EvalState),
       (evalNode env l fi s).1 = true →
       evalNode env (.or l r) fi s = (true, (evalNode env l fi s).2)) ∧
    (∀ (env : Env) (r : Node) (fi : FileInfo) (s : EvalState),
       evalNode env (.and (.bool false) r) fi s = (false, s)) ∧
    (∀ (env : Env) (r : Node) (fi : FileInfo) (s : EvalState),
       evalNode env (.or (.bool true) r) fi s = (true, s)) := by
  refine ⟨?_, ?_, ?_, ?_⟩
  · intro env l r fi s h
    rcases hEq : evalNode env l fi s with ⟨b, s1⟩
    rw [hEq] at h
    simp only at h
    subst h
    simp [evalNode, hEq]
  · intro env l r fi s h
    rcases hEq : evalNode env l fi s with ⟨b, s1⟩
    rw [hEq] at h
    simp only at h
    subst h
    simp [evalNode, hEq]
  · intro env r fi s
    simp [evalNode]
  · intro env r fi s
    simp [evalNode]

/-- Witness for C5 at a concrete input: `-false -a -print` evaluates false
without printing, `-true -o -print` evaluates true without printing. -/
theorem claim5_witness :
    evalNode trivEnv (.and (.bool false) (.print false)) (fileFi 0) initES =
      (false, (evalNode trivEnv (.bool false) (fileFi 0) initES).2) ∧
    evalNode trivEnv (.or (.bool true) (.print false)) (fileFi 0) initES =
      (true, (evalNode trivEnv (.bool true) (fileFi 0) initES).2) :=
  ⟨claim5_and_or_short_circuit.1 trivEnv (.bool false) (.print false) (fileFi 0) initES rfl,
   claim5_and_or_short_circuit.2.1 trivEnv (.bool true) (.print false) (fileFi 0) initES rfl⟩

/-- C4: with the suppression flag set, every action node still evaluates
and returns true (usable for AND and OR chaining) while leaving the state
exactly as it was: no stdout write, no named-file write, no deletion, no
subprocess, no stdin consumption.  The flag-setting actions prune and quit,
which never have an externally visible effect, also leave the effect trace
unchanged and return true. -/
theorem claim4_suppression_blocks_action_effects :
    ∀ (env : Env) (fi : FileInfo) (s : EvalState), s.ctx.suppress = true →
      (∀ nul, evalNode env (.print nul) fi s = (true, s)) ∧
      (∀ p nul, evalNode env (.fprint p nul) fi s = (true, s)) ∧
      (∀ fmt op, evalNode env (.printf fmt op) fi s = (true, s)) ∧
      (∀ op, evalNode env (.ls op) fi s = (true, s)) ∧
      evalNode env .delete fi s = (true, s) ∧
      (∀ argv pl ind pr, evalNode env (.exec argv pl ind pr) fi s = (true, s)) ∧
      (evalNode env .prune fi s).1 = true ∧
      (evalNode env .prune fi s).2.effects = s.effects ∧
      (evalNode env .quit fi s).1 = true ∧
      (evalNode env .quit fi s).2.effects = s.effects := by
  intro env fi s h
  refine ⟨?_, ?_, ?_, ?_, ?_, ?_, ?_, ?_, ?_, ?_⟩ <;>
    simp [evalNode, h]

/-- Witness for C4: a state whose suppression flag is set. -/
theorem claim4_witness :
    evalNode trivEnv (.print false) (fileFi 0) { ctx := { suppress := true } } =
      (true, { ctx := { suppress := true } }) ∧
    evalNode trivEnv .delete (fileFi 0) { ctx := { suppress := true } } =
      (true, { ctx := { suppress := true } }) ∧
    evalNode trivEnv (.exec ["rm"] false false false) (fileFi 0)
      { ctx := { suppress := true } } = (true, { ctx := { suppress := true } }) := by
  have h := claim4_suppression_blocks_action_effects trivEnv (fileFi 0)
    { ctx := { suppress := true } } rfl
  exact ⟨h.1 false, h.2.2.2.2.1, h.2.2.2.2.2.1 ["rm"] false false false⟩

/-- C6: the size test divides the byte size by the selected unit with
ceiling rounding and compares with the `+` greater, `-` less, none equal
convention.  Every unit multiplier a successful parse produces is positive;
against such a multiplier the evaluation result is exactly the comparison of
the ceiling quotient (characterised by its Galois property: the quotient is
at most `k` iff the size fits in `k` whole units).  Concretely a 1-byte file
matches `-size 1k` and not `-size 0k`. -/
theorem claim6_size_ceiling_division :
    (∀ spec sgn n mul, size_bytes_from_spec spec = .ok (sgn, n, mul) → 0 < mul) ∧
    (∀ (env : Env) (sgn : Sign) (n mul : Nat) (fi : FileInfo) (s : EvalState),
       0 < mul →
       evalNode env (.size sgn n mul) fi s =
         (signCompareNat sgn (fi.lstatR.st_size ⌈/⌉ mul) n, s) ∧
       (∀ k, fi.lstatR.st_size ⌈/⌉ mul ≤ k ↔ fi.lstatR.st_size ≤ mul * k)) ∧
    size_bytes_from_spec "1k" = .ok (.eq, 1, 1024) ∧
    (evalNode trivEnv (.size .eq 1 1024) (fileFi 1) initES).1 = true ∧
    size_bytes_from_spec "0k" = .ok (.eq, 0, 1024) ∧
    (evalNode trivEnv (.size .eq 0 1024) (fileFi 1) initES).1 = false := by
  refine ⟨?_, ?_, rfl, rfl, rfl, rfl⟩
  · intro spec sgn n mul h
    have hmul : ∀ c, 0 < sizeUnitMul c := by
      intro c
      unfold sizeUnitMul
      split_ifs <;> norm_num
    unfold size_bytes_from_spec at h
    dsimp only at h
    by_cases hds :
        ((stripSizeSign spec.toList).2.takeWhile Char.isDigit : List Char) = []
    · rw [if_pos hds] at h
      simp at h
    · rw [if_neg hds] at h
      rcases hrest : (stripSizeSign spec.toList).2.drop
          ((stripSizeSign spec.toList).2.takeWhile Char.isDigit).length with
        _ | ⟨u, _ | ⟨v, more⟩⟩
      · rw [hrest] at h
        simp only [Except.ok.injEq, Prod.mk.injEq] at h
        omega
      · rw [hrest] at h
        dsimp only at h
        by_cases hu : u == 'b' ∨ u == 'c' ∨ u == 'w' ∨ u == 'k' ∨ u == 'M' ∨ u == 'G'
        · rw [if_pos hu] at h
          simp only [Except.ok.injEq, Prod.mk.injEq] at h
          rcases h with ⟨_, _, hm⟩
          subst hm
          exact hmul u
        · rw [if_neg hu] at h
          simp at h
      · rw [hrest] at h
        simp at h
  · intro env sgn n mul fi s hm
    constructor
    · show (signCompareNat sgn ((fi.lstatR.st_size + mul - 1) / mul) n, s) = _
      rw [Nat.ceilDiv_eq_add_pred_div]
    · intro k
      rw [ceilDiv_le_iff_le_mul hm]

/-! ## Helper lemmas about the evaluator and the traversal -/

theorem readStdinLine_ctx (s : EvalState) : ((readStdinLine s).2).ctx = s.ctx := by
  unfold readStdinLine
  split <;> rfl

theorem execSpawn_ctx (env : Env) (cwd : Option String) (cmd : List String)
    (s : EvalState) : ((execSpawn env cwd cmd s).2).ctx = s.ctx := by
  unfold execSpawn
  cases env.runCmd cwd cmd <;> rfl

theorem execRunStep_ctx (env : Env) (inDir prompt : Bool) (fi : FileInfo)
    (cmd : List String) (s : EvalState) :
    ((execRunStep env inDir prompt fi cmd s).2).ctx = s.ctx := by
  unfold execRunStep
  dsimp only
  split_ifs <;> simp [execSpawn_ctx, readStdinLine_ctx, emit]

/-- Evaluation never clears the quit flag: any node evaluated in a state
with quit set leaves it set. -/
theorem evalNode_quit_mono (env : Env) (fi : FileInfo) :
    ∀ (node : Node) (s : EvalState), s.ctx.quit = true →
      ((evalNode env node fi s).2).ctx.quit = true := by
  intro node
  induction node with
  | not c ih =>
    intro s h
    rcases hEq : evalNode env c fi s with ⟨b, s1⟩
    have h1 := ih s h
    rw [hEq] at h1
    simpa [evalNode, hEq] using h1
  | and l r ihl ihr =>
    intro s h
    rcases hEq : evalNode env l fi s with ⟨b, s1⟩
    have h1 := ihl s h
    rw [hEq] at h1
    cases b
    · simpa [evalNode, hEq] using h1
    · simpa [evalNode, hEq] using ihr s1 h1
  | or l r ihl ihr =>
    intro s h
    rcases hEq : evalNode env l fi s with ⟨b, s1⟩
    have h1 := ihl s h
    rw [hEq] at h1
    cases b
    · simpa [evalNode, hEq] using ihr s1 h1
    · simpa [evalNode, hEq] using h1
  | comma l r ihl ihr =>
    intro s h
    rcases hEq : evalNode env l fi s with ⟨b, s1⟩
    have h1 := ihl s h
    rw [hEq] at h1
    simpa [evalNode, hEq] using ihr s1 h1
  | exec argv pl ind pr =>
    intro s h
    simp only [evalNode]
    split_ifs
    · exact h
    · rw [execRunStep_ctx]
      exact h
  | print nul =>
    intro s h
    simp only [evalNode]
    split_ifs <;> exact h
  | fprint p nul =>
    intro s h
    simp only [evalNode]
    split_ifs <;> exact h
  | printf fmt op =>
    intro s h
    simp only [evalNode]
    split_ifs <;> exact h
  | ls op =>
    intro s h
    simp only [evalNode]
    split_ifs <;> exact h
  | delete =>
    intro s h
    simp only [evalNode]
    split_ifs <;> exact h
  | bool v => intro s h; exact h
  | name pat ci => intro s h; exact h
  | pathGlob pat ci => intro s h; exact h
  | regex pat ci => intro s h; exact h
  | typeTest ts => intro s h; exact h
  | size sgn n mul => intro s h; exact h
  | links sgn n => intro s h; exact h
  | timeCmp which sgn n unit ds => intro s h; exact h
  | newer which rt => intro s h; cases rt <;> exact h
  | perm pm mask => intro s h; exact h
  | uid n => intro s h; exact h
  | gid n => intro s h; exact h
  | user u => intro s h; cases u <;> exact h
  | group g => intro s h; cases g <;> exact h
  | nouser => intro s h; exact h
  | nogroup => intro s h; exact h
  | readable => intro s h; exact h
  | writable => intro s h; exact h
  | executable => intro s h; exact h
  | empty => intro s h; exact h
  | inum n => intro s h; exact h
  | lname pat ci => intro s h; exact h
  | prune => intro s h; exact h
  | quit => intro s h; rfl

/-- A walk entered with the quit flag set returns its state unchanged. -/
theorem walk_quit_id (env : Env) (opts : Options) (expr : Node) (sd : Nat)
    (fuel : Nat) (path : String) (depth : Nat) (s : WalkState)
    (h : s.es.ctx.quit = true) :
    walk env opts expr sd fuel path depth s = s := by
  cases fuel with
  | zero => rfl
  | succ f => simp [walk, h]

/-- The children loop entered with the quit flag set leaves the state
unchanged: every remaining sibling is skipped. -/
theorem foldl_walk_child_quit_id (env : Env) (opts : Options) (expr : Node)
    (sd fuel : Nat) (path : String) (depth : Nat) :
    ∀ (entries : List String) (s : WalkState), s.es.ctx.quit = true →
      entries.foldl (walk_child env opts expr sd fuel path depth) s = s := by
  intro entries
  induction entries with
  | nil => intro s _; rfl
  | cons nm rest ih =>
    intro s h
    rw [List.foldl_cons]
    have hstep : walk_child env opts expr sd fuel path depth s nm = s := by
      simp [walk_child, h]
    rw [hstep]
    exact ih s h

/-- C2: the quit flag is monotonic and halting.  The quit action sets it;
no evaluation ever clears it; a walk whose state has it set is the identity
(so no entry is visited, no expression is evaluated, nothing is added to
the output, under any root); and the children loop with it set skips every
remaining sibling.  Together: after the evaluation that sets quit finishes
its own file, no further expression evaluation or recursion occurs anywhere
and no later file appears in any output. -/
theorem claim2_quit_monotone_halts_everything :
    (∀ (env : Env) (fi : FileInfo) (s : EvalState),
       ((evalNode env .quit fi s).2).ctx.quit = true) ∧
    (∀ (env : Env) (node : Node) (fi : FileInfo) (s : EvalState),
       s.ctx.quit = true → ((evalNode env node fi s).2).ctx.quit = true) ∧
    (∀ (env : Env) (opts : Options) (expr : Node) (sd fuel : Nat)
       (path : String) (depth : Nat) (s : WalkState),
       s.es.ctx.quit = true → walk env opts expr sd fuel path depth s = s) ∧
    (∀ (env : Env) (opts : Options) (expr : Node) (sd fuel : Nat)
       (path : String) (depth : Nat) (entries : List String) (s : WalkState),
       s.es.ctx.quit = true →
       entries.foldl (walk_child env opts expr sd fuel path depth) s = s) := by
  refine ⟨fun env fi s => rfl, ?_, ?_, ?_⟩
  · intro env node fi s h
    exact evalNode_quit_mono env fi node s h
  · intro env opts expr sd fuel path depth s h
    exact walk_quit_id env opts expr sd fuel path depth s h
  · intro env opts expr sd fuel path depth entries s h
    exact foldl_walk_child_quit_id env opts expr sd fuel path depth entries s h

def quitWS : WalkState := { es := { ctx := { quit := true } } }

/-- Witness for C2: with quit set, a concrete walk over the demo tree is
the identity, and a print evaluation keeps quit set. -/
theorem claim2_witness :
    walk demoEnv {} (.print false) 0 5 "r" 0 quitWS = quitWS ∧
    ((evalNode trivEnv (.print false) (fileFi 0)
        { ctx := { quit := true } }).2).ctx.quit = true :=
  ⟨claim2_quit_monotone_halts_everything.2.2.1 demoEnv {} (.print false) 0 5 "r" 0
      quitWS rfl,
   claim2_quit_monotone_halts_everything.2.1 trivEnv (.print false) (fileFi 0)
      { ctx := { quit := true } } rfl⟩

/-- C3 concerns `-prune`, whose `eval` body (source lines 634-637) is
mis-indented — `ctx.prune_flag = True` sits at the same indentation as its
`def`, an `IndentationError` at import time — and whose context attribute
initialisation (line 117) sits at class scope, a `NameError`; the claim
states the intended behaviour, which this theorem demonstrates against the
intact traversal driver with the prune node modelled from the spec: over
root `r` with subdirectories `a` (inode 5) and `b`, the expression
`( -inum 5 -a -prune ) -o -print` prunes `a` — its child `a/f` is never
visited — while the sibling `b` is evaluated and descended normally; the
same traversal without the prune visits all five entries. -/
theorem claim3_prune_skips_subtree_spares_siblings :
    (traverse demoEnv {} (.or (.and (.inum 5) .prune) (.print false)) 10
        ["r"] []).visits =
      [("r", 0), ("r/a", 1), ("r/b", 1), ("r/b/g", 2)] ∧
    (traverse demoEnv {} (.or (.and (.inum 5) .prune) (.print false)) 10
        ["r"] []).es.effects =
      [.stdout "r\n", .stdout "r/b\n", .stdout "r/b/g\n"] ∧
    (traverse demoEnv {} (.print false) 10 ["r"] []).visits =
      [("r", 0), ("r/a", 1), ("r/a/f", 2), ("r/b", 1), ("r/b/g", 2)] :=
  ⟨rfl, rfl, rfl⟩

/-- C7: the claim says `-H` follows a root argument that is a symlink to a
directory.  The code does not: `traverse` computes the followed stat of the
root (and `start_is_dir`) but never uses them, and `walk` classifies the
root by its own lstat, so a symlink root is not a directory and is never
descended.  Concretely: root `s` is a symlink to directory `d` containing
`f`; under `-H` the followed stat of `s` is a directory and the listing of
`s` is nonempty, yet the traversal visits only `s` itself and prints only
`s` — `f` is never visited. -/
theorem claim7_H_root_symlink_not_descended :
    (traverse hEnv { follow := .H } (.print false) 10 ["s"] []).visits =
      [("s", 0)] ∧
    (traverse hEnv { follow := .H } (.print false) 10 ["s"] []).es.effects =
      [.stdout "s\n"] ∧
    hFS.statOf "s" = some { st_mode := dirMode, st_ino := 3 } ∧
    S_ISDIR dirMode = true ∧
    hFS.scandir "s" = some ["f"] :=
  ⟨rfl, rfl, rfl, rfl, rfl⟩

/-- Witness for C6: the unit multiplier parsed from `1k` is positive, and
against it the evaluation on a 1-byte file is the ceiling-quotient
comparison. -/
theorem claim6_witness :
    0 < 1024 ∧
    evalNode trivEnv (.size .eq 1 1024) (fileFi 1) initES =
      (signCompareNat .eq ((fileFi 1).lstatR.st_size ⌈/⌉ 1024) 1, initES) :=
  ⟨claim6_size_ceiling_division.1 "1k" .eq 1 1024 rfl,
   (claim6_size_ceiling_division.2.1 trivEnv .eq 1 1024 (fileFi 1) initES
      (by norm_num)).1⟩

/-- C8 counterexample: the claim covers unmatched parentheses, but `main`
never checks that the parser consumed the whole token list, so a complete
expression followed by an unmatched closing parenthesis is accepted: on
`-true )` the parser returns `-true` with `)` left over, and the program
runs a full traversal and exits 0 instead of reporting an error before
traversal with a non-zero exit code. -/
theorem claim8_counterexample_trailing_paren :
    parse_expression trivEnv {} 20 ["-true", ")"] = .ok (.bool true, [")"]) ∧
    runMain demoEnv {} 20 ["-true", ")"] ["r"] [] =
      (0, [], [("r", 0), ("r/a", 1), ("r/a/f", 2), ("r/b", 1), ("r/b/g", 2)]) :=
  ⟨rfl, rfl⟩

/-- C8 as amended: for every malformed expression of the other listed kinds
— a test or action missing its required argument, a missing closing
parenthesis, an unknown token, an invalid numeric, octal, size or regex
literal — the parse fails, and whenever the parse of a nonempty token list
(other than the lone `--help` and `--version` forms) fails, the program
writes the message to the error stream and exits with status 1 before any
traversal: no effect is produced and no entry is visited.  The parse exit
code 1 is distinct from 0 and from the interrupt exit code 130.  Surplus
tokens after a complete expression — including an unmatched closing
parenthesis — are silently ignored (see the counterexample). -/
theorem claim8_parse_errors_abort_before_traversal :
    (∀ (env : Env) (opts : Options) (fuel : Nat) (rest cli_paths stdin0 : List String)
       (msg : String),
       rest ≠ [] → rest ≠ ["--help"] → rest ≠ ["--version"] →
       (parse_expression env opts fuel rest).map Prod.fst = .error msg →
       runMain env opts fuel rest cli_paths stdin0 =
         (1, [.stderr ("find: " ++ msg)], [])) ∧
    (1 : Nat) ≠ 0 ∧ (1 : Nat) ≠ INTERRUPT_EXIT ∧
    (∃ m, parse_expression trivEnv {} 20 ["-name"] = .error m) ∧
    (∃ m, parse_expression trivEnv {} 20 ["(", "-true"] = .error m) ∧
    (∃ m, parse_expression trivEnv {} 20 ["-bogus"] = .error m) ∧
    (∃ m, parse_expression trivEnv {} 20 ["-size", "12x"] = .error m) ∧
    (∃ m, parse_expression trivEnv {} 20 ["-perm", "99"] = .error m) ∧
    (∃ m, parse_expression trivEnv {} 20 ["-uid", "abc"] = .error m) ∧
    (∃ m, parse_expression { trivEnv with regexCompiles := fun _ => false } {} 20
       ["-regex", "["] = .error m) := by
  refine ⟨?_, by norm_num, by norm_num [INTERRUPT_EXIT],
    ⟨_, rfl⟩, ⟨_, rfl⟩, ⟨_, rfl⟩, ⟨_, rfl⟩, ⟨_, rfl⟩, ⟨_, rfl⟩, ⟨_, rfl⟩⟩
  intro env opts fuel rest cli_paths stdin0 msg h1 h2 h3 hp
  unfold runMain
  rw [if_neg (by simpa using h2), if_neg (by simpa using h3),
      if_neg (by simpa using h1)]
  rw [hp]

/-- Witness for C8: the missing-argument input `-name` exits 1 with the
error message and neither produces output nor visits anything. -/
theorem claim8_witness :
    runMain trivEnv {} 20 ["-name"] [] [] =
      (1, [.stderr "find: -name requires a pattern"], []) :=
  claim8_parse_errors_abort_before_traversal.1 trivEnv {} 20 ["-name"] [] []
    "-name requires a pattern" (by simp) (by simp) (by simp) rfl

def dirFi : FileInfo :=
  { path := "d", name := "d", depth := 0,
    lstatR := { st_mode := dirMode }, statR := { st_mode := dirMode },
    is_dir := true, is_symlink := false }

/-- C9 counterexample: the claim says the empty test is true exactly for a
zero-byte regular file or an empty directory, but the code's non-directory
branch tests only the size: a zero-byte FIFO — neither a regular file nor a
directory — satisfies it. -/
theorem claim9_counterexample_fifo_empty :
    (evalNode trivEnv .empty fifoFi initES).1 = true ∧
    S_ISREG fifoFi.mode = false ∧
    S_ISDIR fifoFi.mode = false :=
  ⟨rfl, rfl, rfl⟩

/-- C9 as amended: the empty test is true exactly for a directory whose
listing succeeds and is empty, or for a non-directory (of any type, not
only regular files) of size zero; a permission failure listing a directory
makes it false rather than an error, and the evaluation never changes the
state. -/
theorem claim9_empty_characterization :
    (∀ (env : Env) (fi : FileInfo) (s : EvalState),
       (evalNode env .empty fi s).2 = s ∧
       ((evalNode env .empty fi s).1 = true ↔
         (S_ISDIR fi.mode = true ∧ env.fs.scandir fi.path = some ([] : List String)) ∨
         (S_ISDIR fi.mode = false ∧ fi.lstatR.st_size = 0))) ∧
    (∀ (env : Env) (fi : FileInfo) (s : EvalState),
       S_ISDIR fi.mode = true → env.fs.scandir fi.path = none →
       (evalNode env .empty fi s).1 = false) := by
  constructor
  · intro env fi s
    refine ⟨rfl, ?_⟩
    by_cases hd : S_ISDIR fi.mode
    · rcases hs : env.fs.scandir fi.path with _ | l
      · simp [evalNode, hd, hs]
      · simp [evalNode, hd, hs, List.isEmpty_iff]
    · simp only [Bool.not_eq_true] at hd
      simp [evalNode, hd]
  · intro env fi s hd hn
    simp [evalNode, hd, hn]

/-- Witness for C9: a directory whose listing fails (permission denied in
the model environment) is not empty. -/
theorem claim9_witness :
    (evalNode trivEnv .empty dirFi initES).1 = false :=
  claim9_empty_characterization.2 trivEnv dirFi initES rfl rfl

theorem mem_of_mem_ite {α : Type _} {v : α} {c : Prop} [Decidable c]
    {l1 l2 : List α} (h : v ∈ ite c l1 l2) : v ∈ l1 ∨ v ∈ l2 := by
  split_ifs at h
  · exact Or.inl h
  · exact Or.inr h

theorem foldl_preserve {α β : Type _} (P : β → Prop) (f : β → α → β)
    (hf : ∀ b a, P b → P (f b a)) :
    ∀ (l : List α) (b : β), P b → P (l.foldl f b) := by
  intro l
  induction l with
  | nil => intro b hb; exact hb
  | cons x xs ihx =>
    intro b hb
    rw [List.foldl_cons]
    exact ihx _ (hf b x hb)

/-- With a maxdepth in force, a walk entered at depth at most `md` with all
recorded visits at depth at most `md` keeps every recorded visit at depth
at most `md`: the recursion guard (`depth >= maxdepth` forces no descent)
cuts recursion before the bound is exceeded. -/
theorem walk_visits_le (env : Env) (opts : Options) (expr : Node) (sd md : Nat)
    (hmd : opts.maxdepth = some md) :
    ∀ (fuel : Nat) (path : String) (depth : Nat) (s : WalkState),
      depth ≤ md → (∀ v ∈ s.visits, v.2 ≤ md) →
      ∀ v ∈ (walk env opts expr sd fuel path depth s).visits, v.2 ≤ md := by
  intro fuel
  induction fuel with
  | zero => intro path depth s _ hP v hv; exact hP v hv
  | succ f ih =>
    have hB : ∀ (path : String) (depth : Nat), depth < md →
        ∀ (entries : List String) (s2 : WalkState),
        (∀ w ∈ s2.visits, w.2 ≤ md) →
        ∀ w ∈ (entries.foldl (walk_child env opts expr sd f path depth) s2).visits,
          w.2 ≤ md := by
      intro path depth hlt entries
      induction entries with
      | nil => intro s2 hP2 w hw; exact hP2 w hw
      | cons nm rest ihe =>
        intro s2 hP2 w hw
        rw [List.foldl_cons] at hw
        refine ihe _ ?_ w hw
        intro u hu
        unfold walk_child at hu
        by_cases hq2 : s2.es.ctx.quit = true
        · rw [if_pos hq2] at hu
          exact hP2 u hu
        · rw [if_neg hq2] at hu
          exact ih (pyJoin path nm) (depth + 1) s2 (by omega) hP2 u hu
    intro path depth s hd hP v hv
    have hPpre : ∀ w ∈ (s.visits ++ [(path, depth)] : List (String × Nat)), w.2 ≤ md := by
      intro w hw
      rcases List.mem_append.mp hw with h | h
      · exact hP w h
      · simp only [List.mem_singleton] at h
        subst h
        exact hd
    unfold walk at hv
    by_cases hq : s.es.ctx.quit = true
    · rw [if_pos hq] at hv
      exact hP v hv
    · rw [if_neg hq] at hv
      rcases hgs : get_stats env.fs path (opts.follow == FollowMode.L) with ⟨lstO, stO⟩
      rw [hgs] at hv
      cases lstO with
      | none => exact hP v hv
      | some lst =>
        rw [hmd] at hv
        rw [walk_child_eq env opts expr sd f path depth] at hv
        by_cases hdm : depth ≥ md
        · simp only [hdm, if_true, ite_true, apply_ite WalkState.visits,
            apply_ite WalkState.es, apply_ite WalkState.visited,
            apply_ite WalkState.total_matches, apply_ite Prod.snd,
            apply_ite Prod.fst, resetPrune, setSuppress, ite_self,
            Bool.false_and, Bool.and_false, Bool.false_eq_true, if_false,
            ite_false] at hv
          exact hPpre v hv
        · have hlt : depth < md := by omega
          simp only [hdm, if_false, ite_false, apply_ite WalkState.visits,
            apply_ite WalkState.es, apply_ite WalkState.visited,
            apply_ite WalkState.total_matches, apply_ite Prod.snd,
            apply_ite Prod.fst, resetPrune, setSuppress, ite_self] at hv
          rcases mem_of_mem_ite hv with hv1 | hv2
          · refine hB path depth hlt _ _ ?_ v hv1
            intro w hw
            simp only [apply_ite WalkState.visits, apply_ite WalkState.es,
              apply_ite WalkState.visited, apply_ite WalkState.total_matches,
              apply_ite Prod.snd, apply_ite Prod.fst, resetPrune, setSuppress,
              ite_self] at hw
            exact hPpre w hw
          · exact hPpre v hv2

/-- Every visit of a traversal is bounded by the maxdepth. -/
theorem traverse_visits_le (env : Env) (opts : Options) (expr : Node)
    (fuel : Nat) (paths stdin0 : List String) (md : Nat)
    (hmd : opts.maxdepth = some md) :
    ∀ v ∈ (traverse env opts expr fuel paths stdin0).visits, v.2 ≤ md := by
  unfold traverse
  refine foldl_preserve (fun (st : WalkState) => ∀ v ∈ st.visits, v.2 ≤ md) _ ?_ paths _ ?_
  · intro b a hb
    rcases hgs : get_stats env.fs a (opts.follow == FollowMode.L || opts.follow == FollowMode.H)
      with ⟨lstO, stO⟩
    cases lstO with
    | none => exact hb
    | some lst =>
      exact walk_visits_le env opts expr lst.st_dev md hmd fuel a 0
        { b with visited := [] } (Nat.zero_le md) hb
  · intro v hv
    simp [init_walk_state] at hv

/-- C10: with maxdepth set, recursion is cut before exceeding it — every
visited entry (every constructed `FileInfo`) has depth at most maxdepth —
and therefore the `depth > maxdepth` disjunct of the per-file suppression
computation is never true for a visited entry: at any depth within the
bound, suppression is exactly `depth < mindepth`. -/
theorem claim10_maxdepth_bound_and_suppression_equiv :
    (∀ (env : Env) (opts : Options) (expr : Node) (fuel : Nat)
       (paths stdin0 : List String) (md : Nat), opts.maxdepth = some md →
       ∀ v ∈ (traverse env opts expr fuel paths stdin0).visits, v.2 ≤ md) ∧
    (∀ (opts : Options) (md depth : Nat), opts.maxdepth = some md → depth ≤ md →
       suppress_for opts depth = decide (depth < opts.mindepth)) := by
  constructor
  · intro env opts expr fuel paths stdin0 md hmd
    exact traverse_visits_le env opts expr fuel paths stdin0 md hmd
  · intro opts md depth hmd hle
    unfold suppress_for
    rw [hmd]
    dsimp only
    have hgt : decide (depth > md) = false := by
      simp only [decide_eq_false_iff_not]
      omega
    rw [hgt, Bool.false_or]

/-- Witness for C10: a concrete traversal with maxdepth 1 over the demo
tree has the visit `r/a` at depth 1 within the bound, and at depth 2 under
maxdepth 3 with mindepth 2 the suppression computation is the mindepth
comparison. -/
theorem claim10_witness :
    ("r/a", 1).2 ≤ 1 ∧
    suppress_for { maxdepth := some 3, mindepth := 2 } 2 =
      decide (2 < ({ maxdepth := some 3, mindepth := 2 } : Options).mindepth) :=
  ⟨claim10_maxdepth_bound_and_suppression_equiv.1 demoEnv { maxdepth := some 1 }
      (.print false) 10 ["r"] [] 1 rfl ("r/a", 1) (by decide),
   claim10_maxdepth_bound_and_suppression_equiv.2
      { maxdepth := some 3, mindepth := 2 } 3 2 rfl (by norm_num)⟩

end PyFind
